import Mathlib

/-!
Verification of the configuration core of `src/core/config.py`: default
Lennard-Jones parameter generation (`generate_default_lj_params`) and
configuration loading (`Config.from_dict`).

Modelling choices:
- Python floats are modelled as real numbers (exact arithmetic).
- The external periodic-table dataset (`ase.data`: `atomic_numbers` composed
  with `covalent_radii`) is a read-only external dependency of the core; it is
  modelled as an abstract map from element symbols to an optional covalent
  radius, quantified over in the theorems.  A small concrete table holding the
  tabulated radii of the symbols used in the spec scenarios instantiates it.
- Raised exceptions are modelled with `Except` over an error type whose
  constructors are the spec's error taxonomy; each carries the message the
  source attaches where the source fixes one.
- The raw configuration dict is modelled by the two keys `Config.from_dict`
  reads; the `lj_params` sub-dict is an association list with the
  pairwise-distinct keys of a Python dict.
-/

set_option autoImplicit false

namespace AICoding

/-- Error conditions of the configuration core.  `emptyElementSet` and
`unknownElement` model the two `ValueError`s raised inside
`generate_default_lj_params`; `malformedLJParams` models the construction-time
`TypeError` raised by `LJParams(**d)` when `d` does not supply exactly the
three dataclass fields. -/
inductive ConfigError where
  | emptyElementSet : ConfigError
  | unknownElement : String → ConfigError
  | malformedLJParams : ConfigError
deriving DecidableEq

/-- Message attached to each error, following the message strings of
`src/core/config.py` (the `malformedLJParams` text is Python's own
construction-time `TypeError`, which the source does not fix). -/
def ConfigError.message : ConfigError → String
  | .emptyElementSet => "Cannot generate LJ params: No elements provided."
  | .unknownElement s => "Unknown element symbol: " ++ s
  | .malformedLJParams => "LJParams: wrong set of constructor fields."

/-- Parameters for Lennard-Jones potential (the `LJParams` dataclass). -/
structure LJParams where
  epsilon : ℝ
  sigma : ℝ
  cutoff : ℝ

/-- A radius table: the external dataset maps an element symbol to its
covalent radius when the symbol is known (`atomic_numbers.get(elem)` followed
by indexing `covalent_radii`), and to nothing otherwise. -/
abbrev RadiusTable := String → Option ℝ

/-- The resolution loop of `generate_default_lj_params`: resolve each symbol
of `elements` in order, aborting on the first unknown symbol with
`unknownElement` naming it. -/
def resolveRadii (table : RadiusTable) : List String → Except ConfigError (List ℝ)
  | [] => Except.ok []
  | e :: rest =>
    match table e with
    | none => Except.error (ConfigError.unknownElement e)
    | some r => (resolveRadii table rest).map (fun radii => r :: radii)

/-- Default well depth of `generate_default_lj_params` (`epsilon = 1.0`). -/
def defaultEpsilon : ℝ := 1

/-- Default cutoff multiplier of `generate_default_lj_params`
(`cutoff_factor = 2.5`). -/
noncomputable def defaultCutoffFactor : ℝ := 5 / 2

/-- `generate_default_lj_params(elements, epsilon, cutoff_factor)`: reject an
empty element list, resolve all radii, average them, and build the
`LJParams` with `sigma = 2 * r_avg * 2 ** (-1/6)` and
`cutoff = sigma * cutoff_factor`. -/
noncomputable def generate_default_lj_params (table : RadiusTable)
    (elements : List String) (epsilon : ℝ) (cutoff_factor : ℝ) :
    Except ConfigError LJParams :=
  if elements = [] then Except.error ConfigError.emptyElementSet
  else
    (resolveRadii table elements).map (fun radii =>
      let r_avg := radii.sum / (radii.length : ℝ)
      let sigma := 2 * r_avg * Real.rpow 2 (-1 / 6)
      { epsilon := epsilon, sigma := sigma, cutoff := sigma * cutoff_factor })

/-- The part of the raw configuration mapping that `Config.from_dict` reads:
the optional `elements` entry and the optional `lj_params` entry. -/
structure RawConfig where
  elements : Option (List String)
  lj_params : Option (List (String × ℝ))

/-- Python truthiness of `config_dict.get("lj_params")`: `None` and the empty
dict are falsy, a non-empty dict is truthy. -/
def ljTruthy : Option (List (String × ℝ)) → Bool
  | some (_ :: _) => true
  | _ => false

/-- Lookup of a field in the `lj_params` sub-dict. -/
def dictLookup (key : String) (d : List (String × ℝ)) : Option ℝ :=
  (d.find? (fun p => p.1 == key)).map (fun p => p.2)

/-- `LJParams(**d)`: keyword construction of the dataclass succeeds exactly
when the keys of `d` are exactly the three fields `epsilon`, `sigma`,
`cutoff`; a missing required argument or an unexpected keyword argument is a
construction-time failure, modelled as `malformedLJParams`. -/
def mkLJParams (d : List (String × ℝ)) : Except ConfigError LJParams :=
  match dictLookup "epsilon" d, dictLookup "sigma" d, dictLookup "cutoff" d with
  | some e, some s, some c =>
    if d.length = 3 then Except.ok { epsilon := e, sigma := s, cutoff := c }
    else Except.error ConfigError.malformedLJParams
  | _, _, _ => Except.error ConfigError.malformedLJParams

/-- The fields of the `Config` dataclass in scope of the core. -/
structure Config where
  elements : List String
  lj_params : LJParams

/-- `Config.from_dict(config_dict)`: read `elements` (default `[]`), then
either construct `LJParams` from a truthy explicit `lj_params` entry or
delegate to `generate_default_lj_params(elements)` with its defaults. -/
noncomputable def Config.from_dict (table : RadiusTable) (raw : RawConfig) :
    Except ConfigError Config :=
  let elements := raw.elements.getD []
  if ljTruthy raw.lj_params then
    (mkLJParams (raw.lj_params.getD [])).map
      (fun lj => { elements := elements, lj_params := lj })
  else
    (generate_default_lj_params table elements defaultEpsilon defaultCutoffFactor).map
      (fun lj => { elements := elements, lj_params := lj })

/-- Covalent radii (angstrom) of the element symbols appearing in the spec
scenarios, with the values tabulated by the external dataset. -/
def aseTable : RadiusTable := fun s =>
  if s = "C" then some 0.76
  else if s = "Fe" then some 1.32
  else if s = "Ar" then some 1.06
  else none

/-- Arithmetic mean of the resolved radii of `es`, duplicates counted per
occurrence: the spec's `r_avg`. -/
noncomputable def specRadiusMean (table : RadiusTable) (es : List String) : ℝ :=
  (es.map (fun e => (table e).getD 0)).sum / (es.length : ℝ)

/-- The spec's sigma formula: `sigma = 2 * r_avg * 2^(-1/6)`. -/
noncomputable def specSigma (table : RadiusTable) (es : List String) : ℝ :=
  2 * specRadiusMean table es * Real.rpow 2 (-1 / 6)

/-- When every symbol is known, the resolution loop returns the radii in
order, one per occurrence. -/
lemma resolveRadii_ok (table : RadiusTable) (es : List String)
    (h : ∀ e ∈ es, (table e).isSome) :
    resolveRadii table es = Except.ok (es.map (fun e => (table e).getD 0)) := by
  induction es with
  | nil => rfl
  | cons e rest ih =>
    obtain ⟨r, hr⟩ := Option.isSome_iff_exists.mp (h e (List.mem_cons_self e rest))
    have hrest := ih (fun x hx => h x (List.mem_cons_of_mem _ hx))
    simp [resolveRadii, hr, hrest, Except.map]

/-- Normal form of `generate_default_lj_params` on a non-empty all-known
element list. -/
lemma generate_ok (table : RadiusTable) (es : List String) (hne : es ≠ [])
    (hknown : ∀ e ∈ es, (table e).isSome) (eps cf : ℝ) :
    generate_default_lj_params table es eps cf =
      Except.ok { epsilon := eps, sigma := specSigma table es,
                  cutoff := specSigma table es * cf } := by
  unfold generate_default_lj_params
  rw [if_neg hne, resolveRadii_ok table es hknown]
  simp [Except.map, specSigma, specRadiusMean]

/-- On a list containing an unknown symbol, the resolution loop aborts with
`unknownElement` naming an unknown member of the list. -/
lemma resolveRadii_err (table : RadiusTable) (es : List String)
    (h : ∃ e ∈ es, (table e).isNone) :
    ∃ e, e ∈ es ∧ (table e).isNone ∧
      resolveRadii table es = Except.error (ConfigError.unknownElement e) := by
  induction es with
  | nil => simp at h
  | cons a rest ih =>
    cases ha : table a with
    | none =>
      exact ⟨a, List.mem_cons_self a rest, by simp [ha], by simp [resolveRadii, ha]⟩
    | some r =>
      have hrest : ∃ e ∈ rest, (table e).isNone := by
        obtain ⟨e, he, hn⟩ := h
        rcases List.mem_cons.mp he with he1 | he2
        · rw [he1, ha] at hn; simp at hn
        · exact ⟨e, he2, hn⟩
      obtain ⟨e, he, hn, herr⟩ := ih hrest
      exact ⟨e, List.mem_cons_of_mem a he, hn,
        by simp [resolveRadii, ha, herr, Except.map]⟩

/-- C3: the generator rejects an empty element list with `emptyElementSet`,
whose message states that no elements were supplied, and the Loader, given no
(truthy) `lj_params` and an empty element list, propagates exactly that error
unchanged. -/
theorem empty_elements_error (table : RadiusTable) (eps cf : ℝ)
    (els : Option (List String)) (h : els.getD [] = []) :
    generate_default_lj_params table [] eps cf =
        Except.error ConfigError.emptyElementSet ∧
      ConfigError.emptyElementSet.message =
        "Cannot generate LJ params: No elements provided." ∧
      Config.from_dict table { elements := els, lj_params := none } =
        Except.error ConfigError.emptyElementSet := by
  refine ⟨by simp [generate_default_lj_params], rfl, ?_⟩
  simp [Config.from_dict, ljTruthy, h, generate_default_lj_params, Except.map]

/-- Witness for C3 at the spec's Scenario C input. -/
theorem empty_elements_error_witness :
    (none : Option (List String)).getD [] = [] ∧
    (generate_default_lj_params aseTable [] 1 (5 / 2) =
        Except.error ConfigError.emptyElementSet ∧
      ConfigError.emptyElementSet.message =
        "Cannot generate LJ params: No elements provided." ∧
      Config.from_dict aseTable { elements := none, lj_params := none } =
        Except.error ConfigError.emptyElementSet) :=
  ⟨rfl, empty_elements_error aseTable 1 (5 / 2) none rfl⟩

/-- C4: when the element list contains an unknown symbol, the generator fails
with `unknownElement` naming an offending symbol in its message, producing no
`LJParams` for the batch. -/
theorem unknown_element_error (table : RadiusTable) (es : List String) (eps cf : ℝ)
    (h : ∃ e ∈ es, (table e).isNone) :
    ∃ e, e ∈ es ∧ (table e).isNone ∧
      generate_default_lj_params table es eps cf =
        Except.error (ConfigError.unknownElement e) ∧
      (ConfigError.unknownElement e).message = "Unknown element symbol: " ++ e := by
  obtain ⟨e, he, hn, herr⟩ := resolveRadii_err table es h
  have hne : es ≠ [] := by rintro rfl; exact absurd he (List.not_mem_nil e)
  refine ⟨e, he, hn, ?_, rfl⟩
  unfold generate_default_lj_params
  rw [if_neg hne, herr]
  rfl

/-- Witness for C4 at the spec's Scenario D input. -/
theorem unknown_element_error_witness :
    (∃ e ∈ ["Unobtanium"], (aseTable e).isNone) ∧
    ∃ e, e ∈ ["Unobtanium"] ∧ (aseTable e).isNone ∧
      generate_default_lj_params aseTable ["Unobtanium"] 1 (5 / 2) =
        Except.error (ConfigError.unknownElement e) ∧
      (ConfigError.unknownElement e).message = "Unknown element symbol: " ++ e :=
  ⟨by decide, unknown_element_error aseTable ["Unobtanium"] 1 (5 / 2) (by decide)⟩

/-- C1: for every non-empty list of element symbols all known to the
reference table and every epsilon and cutoff_factor, the generator returns
`LJParams(epsilon, sigma, cutoff)` where `sigma = 2 * r_avg * 2^(-1/6)` with
`r_avg` the arithmetic mean of the resolved radii (duplicates counted per
occurrence), `cutoff = sigma * cutoff_factor` exactly, and epsilon passed
through unchanged. -/
theorem generate_default_lj_params_correct (table : RadiusTable) (es : List String)
    (hne : es ≠ []) (hknown : ∀ e ∈ es, (table e).isSome) (eps cf : ℝ) :
    generate_default_lj_params table es eps cf =
      Except.ok { epsilon := eps, sigma := specSigma table es,
                  cutoff := specSigma table es * cf } :=
  generate_ok table es hne hknown eps cf

/-- Witness for C1 at the spec's Scenario A input. -/
theorem generate_default_lj_params_correct_witness :
    (["Fe", "C"] ≠ ([] : List String)) ∧ (∀ e ∈ ["Fe", "C"], (aseTable e).isSome) ∧
    generate_default_lj_params aseTable ["Fe", "C"] 1 (5 / 2) =
      Except.ok { epsilon := 1, sigma := specSigma aseTable ["Fe", "C"],
                  cutoff := specSigma aseTable ["Fe", "C"] * (5 / 2) } :=
  ⟨by decide, by decide,
    generate_default_lj_params_correct aseTable ["Fe", "C"] (by decide) (by decide) 1 (5 / 2)⟩

/-- C7: permuting the element list does not change the generated parameters. -/
theorem generate_perm_invariant (table : RadiusTable) (es1 es2 : List String)
    (hp : es1.Perm es2) (hne : es1 ≠ []) (hknown : ∀ e ∈ es1, (table e).isSome)
    (eps cf : ℝ) :
    generate_default_lj_params table es1 eps cf =
      generate_default_lj_params table es2 eps cf := by
  have hne2 : es2 ≠ [] := fun h => hne (List.Perm.eq_nil (h ▸ hp))
  have hknown2 : ∀ e ∈ es2, (table e).isSome := fun e he => hknown e (hp.mem_iff.mpr he)
  rw [generate_ok table es1 hne hknown eps cf, generate_ok table es2 hne2 hknown2 eps cf]
  have hsum : (es1.map (fun e => (table e).getD 0)).sum
      = (es2.map (fun e => (table e).getD 0)).sum :=
    List.Perm.sum_eq (hp.map (fun e => (table e).getD 0))
  have hlen : es1.length = es2.length := hp.length_eq
  simp [specSigma, specRadiusMean, hsum, hlen]

/-- Witness for C7 on a transposition of Scenario A's elements. -/
theorem generate_perm_invariant_witness :
    (["Fe", "C"] : List String).Perm ["C", "Fe"] ∧
    generate_default_lj_params aseTable ["Fe", "C"] 1 (5 / 2) =
      generate_default_lj_params aseTable ["C", "Fe"] 1 (5 / 2) :=
  ⟨by decide,
    generate_perm_invariant aseTable ["Fe", "C"] ["C", "Fe"] (by decide) (by decide)
      (by decide) 1 (5 / 2)⟩

/-- C8: the generator is deterministic — two calls whose arguments are equal
return equal results, and on a non-empty all-known list that result is an
actual `LJParams` value; the output depends on nothing but the arguments and
the radius table. -/
theorem generate_deterministic (table : RadiusTable) (es1 es2 : List String)
    (eps1 eps2 cf1 cf2 : ℝ) (hes : es1 = es2) (heps : eps1 = eps2) (hcf : cf1 = cf2)
    (hne : es1 ≠ []) (hknown : ∀ e ∈ es1, (table e).isSome) :
    generate_default_lj_params table es1 eps1 cf1 =
        generate_default_lj_params table es2 eps2 cf2 ∧
      ∃ p : LJParams, generate_default_lj_params table es1 eps1 cf1 = Except.ok p := by
  subst hes; subst heps; subst hcf
  exact ⟨rfl, ⟨_, generate_ok table es1 hne hknown eps1 cf1⟩⟩

/-- Witness for C8 at the spec's Scenario B input. -/
theorem generate_deterministic_witness :
    (["Ar"] : List String) = ["Ar"] ∧ (1 : ℝ) = 1 ∧ (5 / 2 : ℝ) = 5 / 2 ∧
    (["Ar"] ≠ ([] : List String)) ∧ (∀ e ∈ ["Ar"], (aseTable e).isSome) ∧
    (generate_default_lj_params aseTable ["Ar"] 1 (5 / 2) =
        generate_default_lj_params aseTable ["Ar"] 1 (5 / 2) ∧
      ∃ p : LJParams, generate_default_lj_params aseTable ["Ar"] 1 (5 / 2) = Except.ok p) :=
  ⟨rfl, rfl, rfl, by decide, by decide,
    generate_deterministic aseTable ["Ar"] ["Ar"] 1 1 (5 / 2) (5 / 2) rfl rfl rfl
      (by decide) (by decide)⟩

/-- A non-empty `lj_params` sub-dict is truthy. -/
lemma ljTruthy_of_ne_nil (d : List (String × ℝ)) (hne : d ≠ []) :
    ljTruthy (some d) = true := by
  cases d with
  | nil => exact absurd rfl hne
  | cons a t => rfl

/-- Keyword construction fails when a required field is missing. -/
lemma mkLJParams_missing (d : List (String × ℝ))
    (hmiss : dictLookup "epsilon" d = none ∨ dictLookup "sigma" d = none ∨
      dictLookup "cutoff" d = none) :
    mkLJParams d = Except.error ConfigError.malformedLJParams := by
  unfold mkLJParams
  cases h1 : dictLookup "epsilon" d <;> cases h2 : dictLookup "sigma" d <;>
    cases h3 : dictLookup "cutoff" d <;> simp_all

/-- C2: a present, non-empty `lj_params` entry whose fields are exactly
`epsilon`, `sigma`, `cutoff` is adopted verbatim by the Loader, whatever the
`elements` entry holds (it may be absent or empty). -/
theorem from_dict_explicit_lj_params (table : RadiusTable)
    (els : Option (List String)) (d : List (String × ℝ)) (e s c : ℝ)
    (hperm : (d.map Prod.fst).Perm ["epsilon", "sigma", "cutoff"])
    (he : dictLookup "epsilon" d = some e) (hs : dictLookup "sigma" d = some s)
    (hc : dictLookup "cutoff" d = some c) :
    Config.from_dict table { elements := els, lj_params := some d } =
      Except.ok { elements := els.getD [],
                  lj_params := { epsilon := e, sigma := s, cutoff := c } } := by
  have hlen : d.length = 3 := by
    have hml := hperm.length_eq
    simpa using hml
  have hdne : d ≠ [] := by
    intro hnil
    rw [hnil] at hlen
    simp at hlen
  have htruthy := ljTruthy_of_ne_nil d hdne
  simp [Config.from_dict, htruthy, mkLJParams, he, hs, hc, hlen, Except.map]

/-- Witness for C2 at the spec's Scenario E input. -/
theorem from_dict_explicit_lj_params_witness :
    (([("epsilon", (0.5 : ℝ)), ("sigma", 2), ("cutoff", 5)].map Prod.fst).Perm
        ["epsilon", "sigma", "cutoff"] ∧
      dictLookup "epsilon" [("epsilon", (0.5 : ℝ)), ("sigma", 2), ("cutoff", 5)] = some 0.5 ∧
      dictLookup "sigma" [("epsilon", (0.5 : ℝ)), ("sigma", 2), ("cutoff", 5)] = some 2 ∧
      dictLookup "cutoff" [("epsilon", (0.5 : ℝ)), ("sigma", 2), ("cutoff", 5)] = some 5) ∧
    Config.from_dict aseTable
        { elements := some ["Fe", "C"],
          lj_params := some [("epsilon", 0.5), ("sigma", 2), ("cutoff", 5)] } =
      Except.ok { elements := (some ["Fe", "C"]).getD [],
                  lj_params := { epsilon := 0.5, sigma := 2, cutoff := 5 } } :=
  ⟨⟨by decide, rfl, rfl, rfl⟩,
    from_dict_explicit_lj_params aseTable (some ["Fe", "C"])
      [("epsilon", 0.5), ("sigma", 2), ("cutoff", 5)] 0.5 2 5 (by decide) rfl rfl rfl⟩

/-- C5: a present, non-empty `lj_params` entry missing one of the three
required fields makes the Loader fail with `malformedLJParams` at
construction time; no `Config` is returned. -/
theorem malformed_lj_params_missing_field (table : RadiusTable)
    (els : Option (List String)) (d : List (String × ℝ)) (hne : d ≠ [])
    (hmiss : dictLookup "epsilon" d = none ∨ dictLookup "sigma" d = none ∨
      dictLookup "cutoff" d = none) :
    Config.from_dict table { elements := els, lj_params := some d } =
      Except.error ConfigError.malformedLJParams := by
  have htruthy := ljTruthy_of_ne_nil d hne
  simp [Config.from_dict, htruthy, mkLJParams_missing d hmiss, Except.map]

/-- Witness for C5 on a sub-dict holding only `epsilon`. -/
theorem malformed_lj_params_missing_field_witness :
    ([("epsilon", (0.5 : ℝ))] ≠ ([] : List (String × ℝ)) ∧
      dictLookup "sigma" [("epsilon", (0.5 : ℝ))] = none) ∧
    Config.from_dict aseTable
        { elements := some ["Fe", "C"], lj_params := some [("epsilon", 0.5)] } =
      Except.error ConfigError.malformedLJParams :=
  ⟨⟨by simp, rfl⟩,
    malformed_lj_params_missing_field aseTable (some ["Fe", "C"])
      [("epsilon", 0.5)] (by simp) (Or.inr (Or.inl rfl))⟩

/-- C6: a present but empty `lj_params` entry is treated exactly as an absent
one — the Loader delegates to `generate_default_lj_params` on the element
list with the defaults `epsilon = 1.0` and `cutoff_factor = 2.5` instead of
failing with `malformedLJParams`. -/
theorem empty_lj_params_treated_as_absent (table : RadiusTable)
    (els : Option (List String)) :
    Config.from_dict table { elements := els, lj_params := some [] } =
        (generate_default_lj_params table (els.getD []) defaultEpsilon
            defaultCutoffFactor).map
          (fun lj => { elements := els.getD [], lj_params := lj }) ∧
      Config.from_dict table { elements := els, lj_params := some [] } =
        Config.from_dict table { elements := els, lj_params := none } ∧
      defaultEpsilon = 1 ∧ defaultCutoffFactor = 5 / 2 :=
  ⟨rfl, rfl, rfl, rfl⟩

/-- A successful field lookup puts the key among the keys of the sub-dict. -/
lemma dictLookup_mem (k : String) (d : List (String × ℝ)) (v : ℝ)
    (h : dictLookup k d = some v) : k ∈ d.map Prod.fst := by
  unfold dictLookup at h
  cases hf : d.find? (fun p => p.1 == k) with
  | none => rw [hf] at h; simp at h
  | some p =>
    have hmem := List.mem_of_find?_eq_some hf
    have hk : p.1 = k := by simpa using List.find?_some hf
    exact hk ▸ List.mem_map_of_mem Prod.fst hmem

/-- C9 (implicit): a present, non-empty `lj_params` entry carrying a key other
than the three fields makes the Loader fail at construction time with
`malformedLJParams`, even when all three required fields are present. -/
theorem unexpected_lj_params_field (table : RadiusTable)
    (els : Option (List String)) (d : List (String × ℝ)) (k : String)
    (hk : k ∈ d.map Prod.fst) (hk1 : k ≠ "epsilon") (hk2 : k ≠ "sigma")
    (hk3 : k ≠ "cutoff") (e s c : ℝ) (he : dictLookup "epsilon" d = some e)
    (hs : dictLookup "sigma" d = some s) (hc : dictLookup "cutoff" d = some c) :
    Config.from_dict table { elements := els, lj_params := some d } =
      Except.error ConfigError.malformedLJParams := by
  have hsub : (["epsilon", "sigma", "cutoff", k] : List String) ⊆ d.map Prod.fst := by
    intro x hx
    rcases List.mem_cons.mp hx with h1 | hx
    · exact h1 ▸ dictLookup_mem "epsilon" d e he
    rcases List.mem_cons.mp hx with h2 | hx
    · exact h2 ▸ dictLookup_mem "sigma" d s hs
    rcases List.mem_cons.mp hx with h3 | hx
    · exact h3 ▸ dictLookup_mem "cutoff" d c hc
    rcases List.mem_cons.mp hx with h4 | hx
    · exact h4 ▸ hk
    · exact absurd hx (List.not_mem_nil x)
  have hmem1 : "epsilon" ∉ (["sigma", "cutoff", k] : List String) := by
    intro hx
    rcases List.mem_cons.mp hx with h | hx
    · exact absurd h (by decide)
    rcases List.mem_cons.mp hx with h | hx
    · exact absurd h (by decide)
    rcases List.mem_cons.mp hx with h | hx
    · exact hk1 h.symm
    · exact absurd hx (List.not_mem_nil _)
  have hmem2 : "sigma" ∉ (["cutoff", k] : List String) := by
    intro hx
    rcases List.mem_cons.mp hx with h | hx
    · exact absurd h (by decide)
    rcases List.mem_cons.mp hx with h | hx
    · exact hk2 h.symm
    · exact absurd hx (List.not_mem_nil _)
  have hmem3 : "cutoff" ∉ ([k] : List String) := by
    intro hx
    rcases List.mem_cons.mp hx with h | hx
    · exact hk3 h.symm
    · exact absurd hx (List.not_mem_nil _)
  have hnd : (["epsilon", "sigma", "cutoff", k] : List String).Nodup :=
    List.nodup_cons.mpr ⟨hmem1, List.nodup_cons.mpr ⟨hmem2,
      List.nodup_cons.mpr ⟨hmem3, List.nodup_singleton k⟩⟩⟩
  have hle : 4 ≤ (d.map Prod.fst).length := (hnd.subperm hsub).length_le
  have hmaplen : (d.map Prod.fst).length = d.length := List.length_map d Prod.fst
  have hd4 : 4 ≤ d.length := by omega
  have hlen : d.length ≠ 3 := by omega
  have hdne : d ≠ [] := by
    intro hnil
    rw [hnil] at hd4
    simp at hd4
  have htruthy := ljTruthy_of_ne_nil d hdne
  simp [Config.from_dict, htruthy, mkLJParams, he, hs, hc, hlen, Except.map]

/-- Witness for C9 on a sub-dict carrying the extra key `charge`. -/
theorem unexpected_lj_params_field_witness :
    (("charge" : String) ∈
        ([("epsilon", (1 : ℝ)), ("sigma", 2), ("cutoff", 3), ("charge", 4)].map Prod.fst) ∧
      ("charge" : String) ≠ "epsilon" ∧ ("charge" : String) ≠ "sigma" ∧
      ("charge" : String) ≠ "cutoff" ∧
      dictLookup "epsilon" [("epsilon", (1 : ℝ)), ("sigma", 2), ("cutoff", 3), ("charge", 4)] =
        some 1 ∧
      dictLookup "sigma" [("epsilon", (1 : ℝ)), ("sigma", 2), ("cutoff", 3), ("charge", 4)] =
        some 2 ∧
      dictLookup "cutoff" [("epsilon", (1 : ℝ)), ("sigma", 2), ("cutoff", 3), ("charge", 4)] =
        some 3) ∧
    Config.from_dict aseTable
        { elements := some ["Fe"],
          lj_params := some [("epsilon", 1), ("sigma", 2), ("cutoff", 3), ("charge", 4)] } =
      Except.error ConfigError.malformedLJParams :=
  ⟨⟨by decide, by decide, by decide, by decide, rfl, rfl, rfl⟩,
    unexpected_lj_params_field aseTable (some ["Fe"])
      [("epsilon", 1), ("sigma", 2), ("cutoff", 3), ("charge", 4)] "charge"
      (by decide) (by decide) (by decide) (by decide) 1 2 3 rfl rfl rfl⟩

/-- Mapping a success-preserving constructor over an `Except` fixes the
`elements` field of any successful result. -/
lemma map_mk_elements (els : List String) (x : Except ConfigError LJParams)
    (cfg : Config)
    (h : x.map (fun lj => { elements := els, lj_params := lj }) = Except.ok cfg) :
    cfg.elements = els := by
  cases x with
  | error err => simp [Except.map] at h
  | ok lj =>
    simp [Except.map] at h
    rw [← h]

/-- C10 (implicit): whenever the Loader succeeds, the returned `elements`
field is exactly the raw `elements` entry, unchanged, and the empty list when
the entry is absent — in the explicit-parameters path and in the
generated-defaults path alike. -/
theorem from_dict_elements_passthrough (table : RadiusTable) (raw : RawConfig)
    (cfg : Config) (h : Config.from_dict table raw = Except.ok cfg) :
    cfg.elements = raw.elements.getD [] := by
  simp only [Config.from_dict] at h
  split at h
  · exact map_mk_elements _ _ _ h
  · exact map_mk_elements _ _ _ h

/-- Witness for C10 at the spec's Scenario E input. -/
theorem from_dict_elements_passthrough_witness :
    Config.from_dict aseTable
        { elements := some ["Fe", "C"],
          lj_params := some [("epsilon", (0.5 : ℝ)), ("sigma", 2), ("cutoff", 5)] } =
      Except.ok { elements := ["Fe", "C"],
                  lj_params := { epsilon := 0.5, sigma := 2, cutoff := 5 } } ∧
    (({ elements := ["Fe", "C"],
        lj_params := { epsilon := 0.5, sigma := 2, cutoff := 5 } } : Config).elements =
      ((some ["Fe", "C"] : Option (List String)).getD [])) :=
  ⟨rfl,
    from_dict_elements_passthrough aseTable
      { elements := some ["Fe", "C"],
        lj_params := some [("epsilon", 0.5), ("sigma", 2), ("cutoff", 5)] }
      { elements := ["Fe", "C"], lj_params := { epsilon := 0.5, sigma := 2, cutoff := 5 } }
      rfl⟩

end AICoding
